import Mathlib

/-!
Shallow embedding of `site.go` from the jkl static-site generator, together
with theorems settling the specification claims about it.

Modelling conventions:
* Go maps (`map[string][]Page`, the configuration map, the destination
  file tree) are association lists with replace-or-append writes, so key
  uniqueness and "last write wins" hold by construction.
* External collaborators (`ParseConfig`, `ParsePost`, `ParsePage`,
  `template.ParseFiles`, the template engine, the markdown renderer, S3
  `Put`) are function parameters with the narrow interfaces the code uses.
* `filepath.Walk` is modelled as a fold of the walker closure over a list
  of walk entries `(path, isDir, optional walk error)`, short-circuiting
  when the walker returns an error, exactly as the Go walker contract does.
* Filesystem writes (`os.MkdirAll`, `ioutil.WriteFile`, `copyTo`) are
  modelled as always-succeeding updates of the destination tree; the
  claims settled here do not concern disk-level I/O failure.
* A Go `panic` (from `template.Must` or a nil-pointer dereference) is a
  distinguished result constructor, separate from a returned `error`.
-/

namespace Jkl

/-- The unified page model of `site.go`: a parsed post or page, exposing
URL, raw content, layout name and (for posts) tags and categories. -/
structure Page where
  url : String
  content : String
  layout : String
  tags : List String
  categories : List String
deriving DecidableEq

/-- Values stored in the site configuration map (`Config`): the original
string settings plus the computed values the Site injects
(`posts`, `time`, `tags`, `categories`). -/
inductive CValue where
  | str : String → CValue
  | postList : List Page → CValue
  | time : Nat → CValue
  | index : List (String × List Page) → CValue
deriving DecidableEq

/-- Lookup in an association list, mirroring a Go map read. -/
def alistGet {α : Type} (m : List (String × α)) (k : String) : Option α :=
  match m with
  | [] => none
  | (k2, v) :: rest => if k2 = k then some v else alistGet rest k

/-- Replace-or-append write in an association list, mirroring a Go map
assignment: keys stay unique, last write wins. -/
def alistSet {α : Type} (m : List (String × α)) (k : String) (v : α) :
    List (String × α) :=
  match m with
  | [] => [(k, v)]
  | (k2, v2) :: rest =>
    if k2 = k then (k, v) :: rest else (k2, v2) :: alistSet rest k v

/-- The two-valued Go map read `posts, ok := m[k]`: the zero value (an
empty list) together with `false` when the key is absent. -/
def goMapGet (m : List (String × List Page)) (k : String) :
    List Page × Bool :=
  match alistGet m k with
  | some v => (v, true)
  | none => ([], false)

/-- Embedding of `calculateTags` (site.go lines 258-272): fold over the
post list, and for each declared tag read the bucket with `ok`; when
`ok == false` the bucket is `append(posts, post)` on the zero value, and
otherwise the bucket is overwritten with the singleton `[]Page{post}`,
exactly as the source is written. -/
def calculateTags (posts : List Page) : List (String × List Page) :=
  posts.foldl
    (fun tags post =>
      post.tags.foldl
        (fun tags tag =>
          let pr := goMapGet tags tag
          if pr.2 = false then alistSet tags tag (pr.1 ++ [post])
          else alistSet tags tag [post])
        tags)
    []

/-- Embedding of `calculateCategories` (site.go lines 240-254), identical
to `calculateTags` but over the declared categories. -/
def calculateCategories (posts : List Page) : List (String × List Page) :=
  posts.foldl
    (fun categories post =>
      post.categories.foldl
        (fun categories category =>
          let pr := goMapGet categories category
          if pr.2 = false then alistSet categories category (pr.1 ++ [post])
          else alistSet categories category [post])
        categories)
    []

/-- Boolean string prefix test on the underlying character lists. -/
def strStartsWith (s pre : String) : Bool :=
  pre.data.isPrefixOf s.data

/-- Boolean string suffix test on the underlying character lists. -/
def strEndsWith (s suf : String) : Bool :=
  suf.data.isSuffixOf s.data

/-- Modelled from the spec: `isHiddenOrTemp` is not among the provided
sources; per the spec a name beginning with the hidden marker `.` or
ending with the backup/temp marker `~` is ignored. -/
def isHiddenOrTemp (rel : String) : Bool :=
  strStartsWith rel "." || strEndsWith rel "~"

/-- Modelled from the spec: `isTemplate` is not among the provided
sources; files under the reserved template directory prefixes
(`_layouts`, `_includes`) are templates. -/
def isTemplate (rel : String) : Bool :=
  strStartsWith rel "_layouts" || strStartsWith rel "_includes"

/-- Modelled from the spec: `isPost` is not among the provided sources;
files under the reserved posts directory prefix (`_posts`) are posts. -/
def isPost (rel : String) : Bool :=
  strStartsWith rel "_posts"

/-- Modelled from the spec: `isPage` is not among the provided sources;
remaining files with a recognized content extension are pages. -/
def isPage (rel : String) : Bool :=
  strEndsWith rel ".md" || strEndsWith rel ".markdown" ||
    strEndsWith rel ".html"

/-- Modelled from the spec: `isStatic` is not among the provided sources;
spec classification rule 5 says everything not matched by an earlier rule
is a static file, so the test holds for every remaining path. -/
def isStatic (rel : String) : Bool :=
  true

/-- The classification a walked path can receive. -/
inductive Category where
  | ignored : Category
  | template : Category
  | post : Category
  | page : Category
  | static : Category
deriving DecidableEq

/-- Embedding of the classification switch inside the `read` walker
(site.go lines 119-156), with the cases in source order: a non-nil walk
error first, then directories, then hidden/temp, templates, posts, pages
and static files; `none` means the walker takes no classification action
for the entry. -/
def classify (isDir : Bool) (errSome : Bool) (rel : String) :
    Option Category :=
  if errSome then none
  else if isDir then none
  else if isHiddenOrTemp rel then some Category.ignored
  else if isTemplate rel then some Category.template
  else if isPost rel then some Category.post
  else if isPage rel then some Category.page
  else if isStatic rel then some Category.static
  else none

/-- The configuration map type. -/
abbrev Config := List (String × CValue)

/-- The external collaborators `NewSite` and `read` call: the config
parser, the post and page parsers, and template compilation
(`template.ParseFiles`), each able to fail with an error. -/
structure Collab where
  parseConfig : String → Except String Config
  parsePost : String → Except String Page
  parsePage : String → Except String Page
  parseFiles : List String → Except String Unit

/-- The mutable state the `read` walker closure accumulates: discovered
layout files, parsed posts and pages, and static file paths. -/
structure ReadState where
  layouts : List String
  posts : List Page
  pages : List Page
  files : List String
deriving DecidableEq

/-- The empty state `read` starts from. -/
def initReadState : ReadState :=
  ⟨[], [], [], []⟩

/-- One entry passed to a `filepath.Walk` callback: the path, whether it
is a directory, and the walk error reported for it (Go passes a nil
`FileInfo` exactly when this error is non-nil). -/
structure WalkEntry where
  fn : String
  isDir : Bool
  err : Option String
deriving DecidableEq

/-- Embedding of `filepath.Rel(base, fn)` for the case the code relies
on: `fn` lies under `base`, and the relative path drops the base prefix
and separator; other inputs are returned unchanged. -/
def relPath (base fn : String) : String :=
  if strStartsWith fn (base ++ "/") then
    String.mk (fn.data.drop (base.data.length + 1))
  else fn

/-- Embedding of one invocation of the `read` walker closure (site.go
lines 119-156): compute the path relative to the source root, classify
it, and either leave the state unchanged, record a layout file, parse and
record a post or page (propagating a parse error), or record a static
file path. -/
def walkStep (c : Collab) (src : String) (st : ReadState)
    (e : WalkEntry) : Except String ReadState :=
  let rel := relPath src e.fn
  match classify e.isDir e.err.isSome rel with
  | none => Except.ok st
  | some Category.ignored => Except.ok st
  | some Category.template =>
    Except.ok { st with layouts := st.layouts ++ [e.fn] }
  | some Category.post =>
    match c.parsePost rel with
    | Except.error err => Except.error err
    | Except.ok p => Except.ok { st with posts := st.posts ++ [p] }
  | some Category.page =>
    match c.parsePage rel with
    | Except.error err => Except.error err
    | Except.ok p => Except.ok { st with pages := st.pages ++ [p] }
  | some Category.static =>
    Except.ok { st with files := st.files ++ [rel] }

/-- Embedding of `filepath.Walk(s.Src, walker)` in `read`: fold the
walker over the walk entries, stopping at the first error the walker
returns. -/
def walkFold (c : Collab) (src : String) (st : ReadState) :
    List WalkEntry → Except String ReadState
  | [] => Except.ok st
  | e :: es =>
    match walkStep c src st e with
    | Except.error err => Except.error err
    | Except.ok st2 => walkFold c src st2 es

/-- The Site record of `site.go`: source and destination roots, the
configuration map, and the parsed content lists. -/
structure Site where
  src : String
  dest : String
  conf : Config
  posts : List Page
  pages : List Page
  files : List String
deriving DecidableEq

/-- The outcome of `NewSite`: a constructed Site, a returned error, or a
runtime panic (the outcome of `template.Must` on a compile failure). -/
inductive LoadResult where
  | ok : Site → LoadResult
  | err : String → LoadResult
  | panic : String → LoadResult
deriving DecidableEq

/-- Whether a load outcome is a returned error. -/
def LoadResult.isErr : LoadResult → Bool
  | LoadResult.err _ => true
  | _ => false

/-- Embedding of `filepath.Join` for the two-component uses in the
source. -/
def pathJoin (a b : String) : String :=
  a ++ "/" ++ b

/-- Embedding of `NewSite` and `read` (site.go lines 34-57 and 112-174):
parse the configuration (returning its error on failure), fold the walker
over the source tree (returning its error on failure), compile the
discovered layouts through `template.Must` (panicking on failure), then
inject `posts`, `time`, `tags` and `categories` into the configuration
and return the constructed Site. -/
def NewSiteModel (c : Collab) (now : Nat) (src dest : String)
    (entries : List WalkEntry) : LoadResult :=
  match c.parseConfig (pathJoin src "_config.yml") with
  | Except.error e => LoadResult.err e
  | Except.ok conf =>
    match walkFold c src initReadState entries with
    | Except.error e => LoadResult.err e
    | Except.ok st =>
      match c.parseFiles st.layouts with
      | Except.error e => LoadResult.panic e
      | Except.ok _ =>
        let conf := alistSet conf "posts" (CValue.postList st.posts)
        let conf := alistSet conf "time" (CValue.time now)
        let conf := alistSet conf "tags"
          (CValue.index (calculateTags st.posts))
        let conf := alistSet conf "categories"
          (CValue.index (calculateCategories st.posts))
        LoadResult.ok
          { src := src, dest := dest, conf := conf,
            posts := st.posts, pages := st.pages, files := st.files }

/-- The destination file tree: paths mapped to written contents. -/
structure FS where
  entries : List (String × String)
deriving DecidableEq

/-- The empty destination tree. -/
def FS.empty : FS :=
  ⟨[]⟩

/-- Write a file into the destination tree. -/
def FS.write (fs : FS) (p c : String) : FS :=
  ⟨alistSet fs.entries p c⟩

/-- Look up a file in the destination tree. -/
def FS.read (fs : FS) (p : String) : Option String :=
  alistGet fs.entries p

/-- Modelled from the spec: `appendExt` is not among the provided
sources; the default extension is appended to the layout name when it is
missing. -/
def appendExt (s ext : String) : String :=
  if strEndsWith s ext then s else s ++ ext

/-- The result of one template execution: the bytes written into the
buffer, and the error `ExecuteTemplate` returns (which the source
discards). -/
structure TemplResult where
  buf : String
  err : Option String
deriving DecidableEq

/-- The template engine collaborator: layout name, site configuration,
page and rendered content in; buffer contents and optional execution
error out. -/
abbrev TemplEngine :=
  String → Config → Page → String → TemplResult

/-- Embedding of one iteration of the `writePages` loop (site.go lines
187-216): resolve the layout name, join the destination path, render the
markdown, execute the layout template, and write the buffer to the
destination. The error component of the template execution is discarded,
mirroring the unchecked return value of `ExecuteTemplate` at line 211;
`os.MkdirAll` and `ioutil.WriteFile` are modelled as succeeding. The
second component logs the URL of each page rendered, in order. -/
def writePageStep (md : String → String) (tmpl : TemplEngine) (s : Site)
    (acc : FS × List String) (page : Page) : FS × List String :=
  let url := page.url
  let raw := page.content
  let layout := appendExt page.layout ".html"
  let f := pathJoin s.dest url
  let c := md raw
  let r := tmpl layout s.conf page c
  (FS.write acc.1 f r.buf, acc.2 ++ [url])

/-- Embedding of `writePages` (site.go lines 178-219): the combined list
is built by appending `s.pages` and then `s.posts` to an empty list, and
each element is rendered in that order. -/
def writePagesGo (md : String → String) (tmpl : TemplEngine) (s : Site)
    (fs : FS) : FS × List String :=
  (([] : List Page) ++ s.pages ++ s.posts).foldl
    (writePageStep md tmpl s) (fs, [])

/-- Embedding of `writeStatic` (site.go lines 224-236): copy every
recorded static file from the source root to the mirrored destination
path; `srcRead` gives the contents of a source file. -/
def writeStaticGo (srcRead : String → String) (s : Site) (fs : FS) : FS :=
  s.files.foldl
    (fun acc file =>
      FS.write acc (pathJoin s.dest file) (srcRead (pathJoin s.src file)))
    fs

/-- Embedding of `Generate` (site.go lines 70-82) on the success path:
`Clear` removes the whole destination tree, `Prep` recreates it empty,
then all pages and posts are rendered and all static files copied. -/
def GenerateModel (md : String → String) (tmpl : TemplEngine)
    (srcRead : String → String) (s : Site) (dest : FS) : FS :=
  let cleared := FS.empty
  let wp := writePagesGo md tmpl s cleared
  writeStaticGo srcRead s wp.1

/-- The `os.FileInfo` the walker receives, reduced to the single method
the `Deploy` walker calls. -/
structure FileInfoM where
  isDir : Bool
deriving DecidableEq

/-- The outcome of one invocation of the `Deploy` walker: a nil return, a
returned error, or a runtime panic. -/
inductive DeployStep where
  | ok : DeployStep
  | err : String → DeployStep
  | panic : String → DeployStep
deriving DecidableEq

/-- Extension of a path: the characters from the final dot on, empty when
there is no dot. -/
def pathExtAux : List Char → Option (List Char)
  | [] => none
  | c :: cs =>
    match pathExtAux cs with
    | some e => some e
    | none => if c = '.' then some (c :: cs) else none

/-- Embedding of `filepath.Ext`. -/
def pathExt (p : String) : String :=
  match pathExtAux p.data with
  | some e => String.mk e
  | none => ""

/-- Embedding of the `Deploy` walker closure (site.go lines 91-105): it
calls `fi.IsDir()` before ever consulting the walk error argument, so a
nil `FileInfo` (which `filepath.Walk` passes exactly when it reports a
walk error) is dereferenced and the call panics; otherwise directories
are skipped and files are read and uploaded with an inferred content
type, each failure returned as an error. The walk error argument `e` is
never consulted, as in the source. -/
def deployWalker (mimeByExt : String → String)
    (readFileF : String → Except String String)
    (put : String → String → String → Except String Unit)
    (dest fn : String) (fi : Option FileInfoM) (e : Option String) :
    DeployStep :=
  match fi with
  | none => DeployStep.panic "nil pointer dereference"
  | some info =>
    if info.isDir then DeployStep.ok
    else
      let rel := relPath dest fn
      let typ := mimeByExt (pathExt rel)
      match readFileF fn with
      | Except.error er => DeployStep.err er
      | Except.ok content =>
        match put rel content typ with
        | Except.error er => DeployStep.err er
        | Except.ok _ => DeployStep.ok

/-- A first post declaring tag `go` and category `news`. -/
def p1 : Page :=
  ⟨"2020-01-01-a.html", "A", "post", ["go"], ["news"]⟩

/-- A second post declaring the same tag `go` and category `news`. -/
def p2 : Page :=
  ⟨"2020-02-02-b.html", "B", "post", ["go"], ["news"]⟩

/-- A first post tagged `release`. -/
def q1 : Page :=
  ⟨"2021-01-01-x.html", "X", "post", ["release"], []⟩

/-- A second post tagged `release`. -/
def q2 : Page :=
  ⟨"2021-02-02-y.html", "Y", "post", ["release"], []⟩

/-- C1: evaluation of the Aggregator at two posts sharing a tag and a
category. Every declared label is a key, but the first declaring post is
absent from the bucket: the `ok == true` branch of `calculateTags` and
`calculateCategories` overwrites an existing bucket with a singleton of
the current post, so the bucket keeps only the last declaring post,
contradicting the claim that every declaring post is in the list. -/
theorem c1_aggregator_drops_earlier_posts :
    calculateTags [p1, p2] = [("go", [p2])]
      ∧ calculateCategories [p1, p2] = [("news", [p2])]
      ∧ p1.tags = ["go"] ∧ p1.categories = ["news"]
      ∧ p1 ∉ [p2] := by
  refine ⟨rfl, rfl, rfl, rfl, ?_⟩
  decide

/-- C2: evaluation at two posts both tagged `release`. The bucket ends as
the singleton of the second post, not the two posts in source-discovery
order, contradicting the claimed bucket contents and order. -/
theorem c2_release_bucket_keeps_only_last :
    calculateTags [q1, q2] = [("release", [q2])]
      ∧ q1.tags = ["release"] ∧ q2.tags = ["release"]
      ∧ [q2] ≠ [q1, q2] := by
  refine ⟨rfl, rfl, rfl, ?_⟩
  decide

/-- A page used in the render-order scenario. -/
def pg0 : Page :=
  ⟨"about.html", "About", "default", [], []⟩

/-- A post used in the render-order scenario. -/
def po0 : Page :=
  ⟨"2020-03-03-c.html", "C", "post", [], []⟩

/-- A site holding one page and one post. -/
def site0 : Site :=
  { src := "src", dest := "_site", conf := [],
    posts := [po0], pages := [pg0], files := [] }

/-- The identity markdown renderer, for scenarios where rendering detail
is irrelevant. -/
def md0 : String → String :=
  fun s => s

/-- A template engine that always succeeds with fixed output. -/
def tmpl0 : TemplEngine :=
  fun _ _ _ _ => ⟨"OUT", none⟩

/-- C3 counterexample: on a site with one post and one page, the first
item rendered is the page and the post comes second, so it is false that
every post is rendered before any page. -/
theorem c3_counterexample :
    site0.posts ≠ [] ∧ site0.pages ≠ []
      ∧ (writePagesGo md0 tmpl0 site0 FS.empty).2
          = ["about.html", "2020-03-03-c.html"]
      ∧ site0.pages.map Page.url = ["about.html"]
      ∧ site0.posts.map Page.url = ["2020-03-03-c.html"]
      ∧ ("about.html" : String) ≠ "2020-03-03-c.html" := by
  refine ⟨?_, ?_, rfl, rfl, rfl, ?_⟩ <;> decide

/-- The render log of the `writePages` fold appends every URL of the
folded list, in list order, after the starting log. -/
theorem writePages_log_aux (md : String → String) (tmpl : TemplEngine)
    (s : Site) (ps : List Page) :
    ∀ acc : FS × List String,
      (ps.foldl (writePageStep md tmpl s) acc).2
        = acc.2 ++ ps.map Page.url := by
  induction ps with
  | nil => intro acc; simp
  | cons p ps ih =>
    intro acc
    simp only [List.foldl_cons, List.map_cons, ih, writePageStep]
    simp

/-- C3 amended: `writePages` renders in pages-then-posts order — the
sequence of rendered URLs is exactly the pages followed by the posts, in
their stored order. -/
theorem c3_pages_then_posts (md : String → String) (tmpl : TemplEngine)
    (s : Site) (fs : FS) :
    (writePagesGo md tmpl s fs).2 = (s.pages ++ s.posts).map Page.url := by
  unfold writePagesGo
  rw [writePages_log_aux]
  simp

/-- A page whose template execution fails. -/
def pBad : Page :=
  ⟨"bad.html", "B", "default", [], []⟩

/-- A page whose template execution succeeds. -/
def pGood : Page :=
  ⟨"good.html", "G", "default", [], []⟩

/-- A site whose first page fails template execution. -/
def site1 : Site :=
  { src := "src", dest := "_site", conf := [],
    posts := [], pages := [pBad, pGood], files := [] }

/-- A template engine that fails (with an empty buffer) on the failing
page and succeeds on every other page. -/
def tmpl1 : TemplEngine :=
  fun _ _ page _ =>
    if page.url = "bad.html" then ⟨"", some "template: boom"⟩
    else ⟨"<p>ok</p>", none⟩

/-- C4: evaluation of `writePages` at a site whose first page fails
template execution. The engine reports an execution error for that page,
yet its (empty) output file is still written, the following page is still
rendered, and no error surfaces: the return value of `ExecuteTemplate`
is discarded at site.go line 211, contradicting the claimed RenderError,
the claimed absence of an output file, and the claimed abort. -/
theorem c4_render_error_ignored :
    (tmpl1 (appendExt pBad.layout ".html") site1.conf pBad
        (md0 pBad.content)).err = some "template: boom"
      ∧ FS.read (writePagesGo md0 tmpl1 site1 FS.empty).1 "_site/bad.html"
          = some ""
      ∧ FS.read (writePagesGo md0 tmpl1 site1 FS.empty).1 "_site/good.html"
          = some "<p>ok</p>"
      ∧ (writePagesGo md0 tmpl1 site1 FS.empty).2
          = ["bad.html", "good.html"] :=
  ⟨rfl, rfl, rfl, rfl⟩

/-- C5 amended: when configuration parsing and the walk succeed but
template compilation fails, `NewSite` panics through `template.Must`
with the compile error rather than returning it. -/
theorem c5_template_failure_panics (c : Collab) (now : Nat)
    (src dest : String) (entries : List WalkEntry) (conf : Config)
    (st : ReadState) (e : String)
    (h1 : c.parseConfig (pathJoin src "_config.yml") = Except.ok conf)
    (h2 : walkFold c src initReadState entries = Except.ok st)
    (h3 : c.parseFiles st.layouts = Except.error e) :
    NewSiteModel c now src dest entries = LoadResult.panic e := by
  simp only [NewSiteModel, h1, h2, h3]

/-- Collaborators whose template compilation fails while everything else
succeeds. -/
def cTmplFail : Collab :=
  { parseConfig := fun _ => Except.ok []
  , parsePost := fun _ => Except.error "unused"
  , parsePage := fun _ => Except.error "unused"
  , parseFiles := fun _ => Except.error "bad layout syntax" }

/-- C5 witness: concrete instantiation of the panic theorem. -/
theorem c5_template_failure_panics_witness :
    cTmplFail.parseConfig (pathJoin "src" "_config.yml") = Except.ok []
      ∧ walkFold cTmplFail "src" initReadState [] = Except.ok initReadState
      ∧ cTmplFail.parseFiles initReadState.layouts
          = Except.error "bad layout syntax"
      ∧ NewSiteModel cTmplFail 0 "src" "_site" []
          = LoadResult.panic "bad layout syntax" :=
  ⟨rfl, rfl, rfl,
    c5_template_failure_panics cTmplFail 0 "src" "_site" [] []
      initReadState "bad layout syntax" rfl rfl rfl⟩

/-- C5 counterexample: at a source root whose discovered layouts fail to
compile, `NewSite` does not return an error to the caller — the outcome
is a panic, so the claim that `Load` returns an error is false at this
input. -/
theorem c5_counterexample :
    cTmplFail.parseFiles [] = Except.error "bad layout syntax"
      ∧ (NewSiteModel cTmplFail 0 "src" "_site" []).isErr = false
      ∧ NewSiteModel cTmplFail 0 "src" "_site" []
          = LoadResult.panic "bad layout syntax" :=
  ⟨rfl, rfl, rfl⟩

/-- C6: when the configuration file fails to parse, `NewSite` returns
the configuration error and no Site value: the outcome is the `err`
constructor carrying the parse error, so no posts/pages/static lists are
ever populated. -/
theorem c6_config_error_returns_err (c : Collab) (now : Nat)
    (src dest : String) (entries : List WalkEntry) (e : String)
    (h : c.parseConfig (pathJoin src "_config.yml") = Except.error e) :
    NewSiteModel c now src dest entries = LoadResult.err e := by
  simp only [NewSiteModel, h]

/-- Collaborators whose configuration parsing fails. -/
def cCfgFail : Collab :=
  { parseConfig := fun _ => Except.error "could not parse _config.yml"
  , parsePost := fun _ => Except.error "unused"
  , parsePage := fun _ => Except.error "unused"
  , parseFiles := fun _ => Except.ok () }

/-- C6 witness: concrete instantiation of the configuration-error
theorem. -/
theorem c6_config_error_returns_err_witness :
    cCfgFail.parseConfig (pathJoin "src" "_config.yml")
        = Except.error "could not parse _config.yml"
      ∧ NewSiteModel cCfgFail 0 "src" "_site" []
          = LoadResult.err "could not parse _config.yml" :=
  ⟨rfl,
    c6_config_error_returns_err cCfgFail 0 "src" "_site" []
      "could not parse _config.yml" rfl⟩

/-- C7: the classifier assigns every non-directory, non-errored walked
path exactly one of the five categories (the result is always `some`); a
hidden or temporary path classifies as ignored no matter which other
rules it matches, because that case is tested first; and a directory is
never classified, whatever the walk error flag. -/
theorem c7_classifier_total_priority (rel : String) (b : Bool) :
    (classify false false rel).isSome = true
      ∧ (isHiddenOrTemp rel = true
          → classify false false rel = some Category.ignored)
      ∧ classify true b rel = none := by
  refine ⟨?_, ?_, ?_⟩
  · unfold classify
    by_cases h1 : isHiddenOrTemp rel <;>
      by_cases h2 : isTemplate rel <;>
        by_cases h3 : isPost rel <;>
          by_cases h4 : isPage rel <;>
            simp [h1, h2, h3, h4, isStatic]
  · intro h
    simp [classify, h]
  · cases b <;> simp [classify]

/-- C7 witness: a path that is simultaneously a temp file and under the
posts directory classifies as ignored — the hidden/temp rule wins. -/
theorem c7_classifier_total_priority_witness :
    isHiddenOrTemp "_posts/2020-01-01-draft.md~" = true
      ∧ isPost "_posts/2020-01-01-draft.md~" = true
      ∧ classify false false "_posts/2020-01-01-draft.md~"
          = some Category.ignored :=
  ⟨rfl, rfl,
    (c7_classifier_total_priority "_posts/2020-01-01-draft.md~" false).2.1
      rfl⟩

/-- C8: the destination tree `Generate` produces does not depend on the
destination tree it starts from — `Clear` deletes everything before
anything is written — so running `Generate` twice on the same Site
produces an identical destination tree both times. -/
theorem c8_generate_idempotent (md : String → String) (tmpl : TemplEngine)
    (srcRead : String → String) (s : Site) (d1 d2 : FS) :
    GenerateModel md tmpl srcRead s d1 = GenerateModel md tmpl srcRead s d2
      ∧ GenerateModel md tmpl srcRead s (GenerateModel md tmpl srcRead s d1)
          = GenerateModel md tmpl srcRead s d1 :=
  ⟨rfl, rfl⟩

/-- The `read` walker leaves the state unchanged and returns no error on
an entry carrying a walk error: the `err != nil` case returns nil
first. -/
theorem walkStep_err (c : Collab) (src : String) (st : ReadState)
    (e : WalkEntry) (h : e.err.isSome = true) :
    walkStep c src st e = Except.ok st := by
  simp [walkStep, classify, h]

/-- Folding the `read` walker over a list of entries gives the same
result as folding it over the entries whose walk error is absent:
errored entries contribute nothing and never abort the walk. -/
theorem walkFold_filter (c : Collab) (src : String)
    (entries : List WalkEntry) :
    ∀ st : ReadState,
      walkFold c src st entries
        = walkFold c src st (entries.filter fun x => x.err.isNone) := by
  induction entries with
  | nil => intro st; rfl
  | cons x xs ih =>
    intro st
    by_cases hx : x.err.isSome = true
    · have h1 : walkStep c src st x = Except.ok st :=
        walkStep_err c src st x hx
      have h2 : x.err.isNone = false := by
        cases hv : x.err <;> simp_all
      simp only [walkFold, h1, List.filter_cons, h2, if_neg]
      simpa using ih st
    · have h2 : x.err.isNone = true := by
        cases hv : x.err <;> simp_all
      simp only [walkFold, List.filter_cons, h2, if_pos]
      cases hs : walkStep c src st x with
      | error er => simp [walkFold, hs]
      | ok st2 => simpa [walkFold, hs] using ih st2

/-- C9: an entry for which the filesystem walk reports an error is
silently discarded by the `read` walker — the walker returns nil with
the state unchanged — and consequently the whole walk behaves as if the
errored entries were absent: the fold equals the fold over the entries
without a walk error, so the load never fails because of them and they
appear in no list. -/
theorem c9_walk_error_entries_skipped (c : Collab) (src : String)
    (st : ReadState) (e : WalkEntry) (entries : List WalkEntry)
    (h : e.err.isSome = true) :
    walkStep c src st e = Except.ok st
      ∧ walkFold c src st entries
          = walkFold c src st (entries.filter fun x => x.err.isNone) :=
  ⟨walkStep_err c src st e h, walkFold_filter c src entries st⟩

/-- A walk entry carrying a walk error. -/
def eErr : WalkEntry :=
  ⟨"src/unreadable.md", false, some "permission denied"⟩

/-- Collaborators used to instantiate the walk-error theorem. -/
def cWalk : Collab :=
  { parseConfig := fun _ => Except.ok []
  , parsePost := fun _ => Except.error "unused"
  , parsePage := fun _ => Except.error "unused"
  , parseFiles := fun _ => Except.ok () }

/-- C9 witness: concrete instantiation on an errored entry. -/
theorem c9_walk_error_entries_skipped_witness :
    eErr.err.isSome = true
      ∧ walkStep cWalk "src" initReadState eErr = Except.ok initReadState
      ∧ walkFold cWalk "src" initReadState [eErr]
          = walkFold cWalk "src" initReadState
              ([eErr].filter fun x => x.err.isNone) :=
  ⟨rfl,
    (c9_walk_error_entries_skipped cWalk "src" initReadState eErr [eErr]
        rfl).1,
    (c9_walk_error_entries_skipped cWalk "src" initReadState eErr [eErr]
        rfl).2⟩

/-- C10: whenever the destination walk reports an error for an entry,
`filepath.Walk` passes a nil `FileInfo`, and the `Deploy` walker calls
`fi.IsDir()` before consulting the error argument, so the call panics on
a nil dereference instead of returning an error. -/
theorem c10_deploy_nil_fileinfo_panics (mimeByExt : String → String)
    (readFileF : String → Except String String)
    (put : String → String → String → Except String Unit)
    (dest fn er : String) :
    deployWalker mimeByExt readFileF put dest fn none (some er)
      = DeployStep.panic "nil pointer dereference" :=
  rfl

end Jkl
